import Mathlib

/-!
Verification of the RAG document-search pipeline.

Shallow embedding of the pipeline core:
  - src/src/nodes/nodes.py        (simple generation mode)      -- namespace Simple
  - src/src/nodes/reactnode.py    (tool-augmented generation)   -- namespace React
  - src/src/graph_builder/graph_builder.py (orchestrator)       -- namespace Orchestrator

Python generators are modelled as pure functions returning the list of
yielded values together with the value the generator returns on
completion.  Collaborators (retriever, language model, reasoning loop)
are modelled as explicit inputs: the retriever as a function from a query
to the document list it returns, the streamed backend output as the list
of chunks the stream delivers before it either finishes normally or
raises (the optional error string).  Where a definition instruments a
side effect (the list of issued queries, the count of blocking backend
invocations), it does so by returning the trace alongside the result.
-/

set_option autoImplicit false

namespace RAGSearch

/-- Modelled from the spec (section 3): src/state/rag_state.py is not among
the provided sources.  A retrieved passage record: body text plus the two
metadata keys the core consults ("title" and "source"); a key that is
missing from the metadata mapping is `none`. -/
structure Document where
  page_content : String
  title : Option String := none
  source : Option String := none
  deriving Repr, DecidableEq

/-- Modelled from the spec (section 3): src/state/rag_state.py is not among
the provided sources.  The State record threaded through the pipeline:
question set at entry, retrieved_docs defaulting to the empty sequence,
answer optional and absent until generation completes. -/
structure RAGState where
  question : String
  retrieved_docs : List Document := []
  answer : Option String := none
  deriving Repr, DecidableEq

/-- Python truthiness of an optional string attribute: a missing attribute
and an empty string are both falsy (`hasattr(x, a) and x.a`, or
`meta.get(k) or ...`). -/
def pyTruthy : Option String → Bool
  | some s => s ≠ ""
  | none => false

/-- RAGNodes.retrieve_docs (identical in nodes.py lines 20-34 and
reactnode.py lines 24-30): one retriever query on the question, then a
fresh state carrying the question and the returned docs, answer left at
its default.  The second component records the queries issued to the
retrieval collaborator. -/
def retrieve_docs (retriever : String → List Document) (st : RAGState) :
    RAGState × List String :=
  let docs := retriever st.question
  ({ question := st.question, retrieved_docs := docs }, [st.question])

namespace Simple

/-- A chunk delivered by the simple backend stream (nodes.py lines 93-102):
either an object probed for a `content` attribute then a `text` attribute
(`none` models a missing attribute), or a plain string. -/
inductive StreamChunk where
  | obj (content : Option String) (text : Option String)
  | str (s : String)
  deriving Repr, DecidableEq

/-- The prompt template of nodes.py lines 50-55 and 83-88, with the context
block and question substituted. -/
def mkPrompt (context question : String) : String :=
  "Answer the question based on the context.\n\nContext:\n" ++ context
    ++ "\n\nQuestion: " ++ question

/-- One iteration of the chunk loop in nodes.py lines 93-102: returns the
new accumulated answer and the value yielded for this chunk, if any. -/
def chunkStep (full : String) : StreamChunk → String × Option String
  | .obj content text =>
    if pyTruthy content then
      let f := full ++ content.getD ""
      (f, some f)
    else if pyTruthy text then
      let f := full ++ text.getD ""
      (f, some f)
    else (full, none)
  | .str s =>
    let f := full ++ s
    (f, some f)

/-- The chunk loop of nodes.py lines 92-102: threads the accumulated
answer through `chunkStep` and collects the yielded values in order. -/
def streamLoopS (full : String) : List StreamChunk → String × List String
  | [] => (full, [])
  | c :: rest =>
    let step := chunkStep full c
    let restRes := streamLoopS step.1 rest
    (restRes.1, step.2.toList ++ restRes.2)

/-- RAGNodes.generate_answer (nodes.py lines 36-64): joins the passage
bodies with a blank line, fills the prompt template, invokes the backend
once and stores its response text as the answer.  The backend is the
function `llm` from prompt to response text; the second component records
the prompts sent to it. -/
def generate_answer (llm : String → String) (st : RAGState) :
    RAGState × List String :=
  let context := String.intercalate "\n\n" (st.retrieved_docs.map Document.page_content)
  let prompt := mkPrompt context st.question
  let response := llm prompt
  ({ question := st.question, retrieved_docs := st.retrieved_docs,
     answer := some response }, [prompt])

/-- RAGNodes.generate_answer_streaming (nodes.py lines 66-112).  `chunks`
is the list of chunks the backend stream delivers; `err = some e` means
the stream then raises an exception whose text is `e` (nodes.py lines
103-106), `err = none` that it finishes normally.  Result: the yielded
values in order, and the state the generator returns. -/
def generate_answer_streaming (chunks : List StreamChunk) (err : Option String)
    (st : RAGState) : List String × RAGState :=
  let r := streamLoopS "" chunks
  match err with
  | none =>
    (r.2, { question := st.question, retrieved_docs := st.retrieved_docs,
            answer := some r.1 })
  | some e =>
    let msg := "Error during streaming: " ++ e
    (r.2 ++ [msg], { question := st.question, retrieved_docs := st.retrieved_docs,
                     answer := some msg })

end Simple

namespace React

/-- RAGNodes._build_tools, inner retriever_tool_fn, title lookup
(reactnode.py line 42): the metadata value under "title" if truthy, else
the value under "source" if truthy, else the fallback label built from the
1-based index. -/
def titleOf (i : Nat) (d : Document) : String :=
  if pyTruthy d.title then d.title.getD ""
  else if pyTruthy d.source then d.source.getD ""
  else "doc_" ++ toString i

/-- RAGNodes._build_tools, inner retriever_tool_fn (reactnode.py lines
35-44): one retriever query; the sentinel on an empty result, otherwise
the first 8 passages formatted and joined by blank lines. -/
def retriever_tool_fn (retriever : String → List Document) (query : String) :
    String :=
  let docs := retriever query
  if docs.isEmpty then "No documents found."
  else
    let merged := ((docs.take 8).enumFrom 1).map fun p =>
      "[" ++ toString p.1 ++ "] " ++ titleOf p.1 p.2 ++ "\n" ++ p.2.page_content
    String.intercalate "\n\n" merged

/-- A message of the reasoning loop.  `content = none` models a message
object without a content attribute (message content is modelled as text,
the shape LangChain delivers for the models this repository configures);
`finish_reason` models a truthy `response_metadata.get("finish_reason")`
(reactnode.py line 119). -/
structure AgentMessage where
  content : Option String := none
  finish_reason : Bool := false
  deriving Repr, DecidableEq

/-- One event of the reasoning-loop stream.  A chunk lacking the
"messages" key behaves exactly like one whose message list is empty
(reactnode.py line 115 skips both), so both are modelled by `messages = []`. -/
structure AgentChunk where
  messages : List AgentMessage
  deriving Repr, DecidableEq

/-- One iteration of the stream loop of reactnode.py lines 113-126:
returns the new accumulated answer and the yielded value, if any.  Both
the final and the non-final branch yield the message content once and
make it the new accumulated answer; only the statement order differs in
the source. -/
def reactChunkStep (full : String) (ch : AgentChunk) : String × Option String :=
  match ch.messages.getLast? with
  | none => (full, none)
  | some m =>
    if pyTruthy m.content then
      let c := m.content.getD ""
      if m.finish_reason then (c, some c) else (c, some c)
    else (full, none)

/-- The stream loop of reactnode.py lines 112-126: threads the
accumulated answer through `reactChunkStep` and collects the yields. -/
def reactStreamLoop (full : String) : List AgentChunk → String × List String
  | [] => (full, [])
  | c :: rest =>
    let step := reactChunkStep full c
    let restRes := reactStreamLoop step.1 rest
    (restRes.1, step.2.toList ++ restRes.2)

/-- The content a stream event contributes, if any: the content of the
last message of a chunk with a non-empty message list, when truthy. -/
def eventContent (ch : AgentChunk) : Option String :=
  ch.messages.getLast?.bind fun m =>
    if pyTruthy m.content then some (m.content.getD "") else none

/-- The sequence of contents of the content-bearing events of a stream. -/
def contentsOf (stream : List AgentChunk) : List String :=
  stream.filterMap eventContent

/-- RAGNodes.generate_answer (reactnode.py lines 73-92): one blocking
reasoning-loop invocation; `resultMessages` is the message list of its
result (`result.get("messages", [])`).  The answer is the content of the
last message when present (getattr default None), replaced by the
sentinel when falsy.  The second component counts blocking invocations. -/
def generate_answer (resultMessages : List AgentMessage) (st : RAGState) :
    RAGState × Nat :=
  let answer : Option String :=
    match resultMessages.getLast? with
    | some m => m.content
    | none => none
  ({ question := st.question, retrieved_docs := st.retrieved_docs,
     answer := some (if pyTruthy answer then answer.getD ""
                     else "Could not generate answer.") }, 1)

/-- RAGNodes.generate_answer_streaming (reactnode.py lines 94-150).
`stream` is the list of events the reasoning-loop stream delivers;
`streamErr = some e` means the stream then raises an exception with text
`e`, caught at lines 143-150; `fallback` is the message list the fallback
blocking invocation of lines 130-131 would return.  Result: the yielded
values in order, the state the generator returns, and the number of
blocking invocations performed. -/
def generate_answer_streaming (stream : List AgentChunk)
    (streamErr : Option String) (fallback : List AgentMessage)
    (st : RAGState) : List String × RAGState × Nat :=
  let r := reactStreamLoop "" stream
  match streamErr with
  | some e =>
    let msg := "Error generating answer: " ++ e
    (r.2 ++ [msg], ({ question := st.question, retrieved_docs := st.retrieved_docs,
                      answer := some msg }, 0))
  | none =>
    if r.1 = "" then
      match fallback.getLast? with
      | none =>
        (r.2, ({ question := st.question, retrieved_docs := st.retrieved_docs,
                 answer := some r.1 }, 1))
      | some m =>
        let a := m.content.getD "Could not generate answer."
        (r.2 ++ [a], ({ question := st.question, retrieved_docs := st.retrieved_docs,
                        answer := some a }, 1))
    else
      (r.2, ({ question := st.question, retrieved_docs := st.retrieved_docs,
               answer := some r.1 }, 0))

end React

namespace Orchestrator

/-- A caller-facing progress event of GraphBuilder.run_streaming
(graph_builder.py lines 77-123). -/
structure ProgressEvent where
  step : String
  content : String
  state : Option RAGState
  deriving Repr, DecidableEq

/-- The consumption loop of graph_builder.py lines 104-115: iterates the
items the generator hands to the for loop; a string item becomes a
generating event pinned to the post-retrieval state, any other item is
assigned to final_state (the last assignment wins). -/
def consumeLoop (pinned : RAGState) :
    List (String ⊕ RAGState) → List ProgressEvent × Option RAGState
  | [] => ([], none)
  | Sum.inl s :: rest =>
    let r := consumeLoop pinned rest
    (⟨"generating", s, some pinned⟩ :: r.1, r.2)
  | Sum.inr fs :: rest =>
    let r := consumeLoop pinned rest
    (r.1, match r.2 with
          | some x => some x
          | none => some fs)

/-- GraphBuilder.run_streaming (graph_builder.py lines 63-123), over the
tool-augmented nodes that graph_builder.py imports (reactnode.py).  The
items the for loop of line 105 receives are exactly the values the
generator yields, which are all strings; the state the generator returns
travels on StopIteration, which the for statement swallows (PEP 380), so
it never reaches the loop body.  This is captured by feeding
`consumeLoop` the yield list injected by `Sum.inl`. -/
def run_streaming (retriever : String → List Document)
    (stream : List React.AgentChunk) (streamErr : Option String)
    (fallback : List React.AgentMessage) (question : String) :
    List ProgressEvent :=
  let e1 : ProgressEvent := ⟨"retrieving", "Retrieving relevant documents...", none⟩
  let docs := retriever question
  let stateAfter : RAGState := { question := question, retrieved_docs := docs }
  let e2 : ProgressEvent :=
    ⟨"retrieving", "Found " ++ toString docs.length ++ " relevant documents",
     some stateAfter⟩
  let e3 : ProgressEvent := ⟨"generating", "", some stateAfter⟩
  let gen := React.generate_answer_streaming stream streamErr fallback stateAfter
  let consumed := consumeLoop stateAfter (gen.1.map Sum.inl)
  let tailEvents :=
    match consumed.2 with
    | some fs => consumed.1 ++ [⟨"complete", fs.answer.getD "", some fs⟩]
    | none => consumed.1
  [e1, e2, e3] ++ tailEvents

end Orchestrator

/-! Derived definitions used to state the theorems. -/

namespace Simple

/-- The fragment the shape dispatch of nodes.py lines 94-101 extracts from
a chunk, if any: the content attribute when truthy, else the text
attribute when truthy, else the chunk itself when it is a plain string. -/
def fragOf : StreamChunk → Option String
  | .obj content text =>
    if pyTruthy content then some (content.getD "")
    else if pyTruthy text then some (text.getD "")
    else none
  | .str s => some s

end Simple

/-- The running concatenations of a fragment list on top of an
accumulator: element i is the accumulator followed by the first i + 1
fragments. -/
def cumConcat (acc : String) : List String → List String
  | [] => []
  | f :: r => (acc ++ f) :: cumConcat (acc ++ f) r

/-- Each element of the list extends the previous one by some suffix. -/
def growsMonotone : List String → Prop
  | [] => True
  | [_] => True
  | a :: b :: r => (∃ t, b = a ++ t) ∧ growsMonotone (b :: r)

/-! Helper lemmas. -/

lemma getLast?_cons_getD (c acc : String) :
    ∀ l : List String, (c :: l).getLast?.getD acc = l.getLast?.getD c
  | [] => rfl
  | b :: l' => by
    rw [List.getLast?_cons_cons]
    obtain ⟨x, hx⟩ := Option.isSome_iff_exists.mp
      (List.getLast?_isSome.mpr (List.cons_ne_nil b l'))
    rw [hx]
    rfl

namespace React

lemma reactChunkStep_none {ch : AgentChunk} (full : String)
    (h : eventContent ch = none) : reactChunkStep full ch = (full, none) := by
  unfold reactChunkStep
  unfold eventContent at h
  cases hm : ch.messages.getLast? with
  | none => rfl
  | some m =>
    rw [hm] at h
    by_cases hc : pyTruthy m.content
    · simp [hc] at h
    · simp [hc]

lemma reactChunkStep_some {ch : AgentChunk} {c : String} (full : String)
    (h : eventContent ch = some c) : reactChunkStep full ch = (c, some c) := by
  unfold reactChunkStep
  unfold eventContent at h
  cases hm : ch.messages.getLast? with
  | none => rw [hm] at h; exact absurd h (by simp)
  | some m =>
    rw [hm] at h
    by_cases hc : pyTruthy m.content
    · simp only [Option.some_bind, hc, if_pos] at h
      obtain rfl : m.content.getD "" = c := by simpa using h
      simp [hc]
    · simp [hc] at h

lemma contentsOf_cons_none {ch : AgentChunk} (rest : List AgentChunk)
    (h : eventContent ch = none) :
    contentsOf (ch :: rest) = contentsOf rest := by
  unfold contentsOf
  rw [List.filterMap_cons, h]

lemma contentsOf_cons_some {ch : AgentChunk} {c : String}
    (rest : List AgentChunk) (h : eventContent ch = some c) :
    contentsOf (ch :: rest) = c :: contentsOf rest := by
  unfold contentsOf
  rw [List.filterMap_cons, h]

lemma reactStreamLoop_eq :
    ∀ (stream : List AgentChunk) (acc : String),
      reactStreamLoop acc stream
        = ((contentsOf stream).getLast?.getD acc, contentsOf stream)
  | [], _ => rfl
  | ch :: rest, acc => by
    cases h : eventContent ch with
    | none =>
      simp only [reactStreamLoop, reactChunkStep_none acc h,
        contentsOf_cons_none rest h, Option.toList_none, List.nil_append]
      rw [reactStreamLoop_eq rest acc]
    | some c =>
      simp only [reactStreamLoop, reactChunkStep_some acc h,
        contentsOf_cons_some rest h, Option.toList_some, List.singleton_append]
      rw [reactStreamLoop_eq rest c, getLast?_cons_getD]

lemma eventContent_ne_empty {ch : AgentChunk} {x : String}
    (h : eventContent ch = some x) : x ≠ "" := by
  unfold eventContent at h
  cases hm : ch.messages.getLast? with
  | none => rw [hm] at h; exact absurd h (by simp)
  | some m =>
    rw [hm] at h
    by_cases hc : pyTruthy m.content
    · simp only [Option.some_bind, hc, if_pos] at h
      cases hcon : m.content with
      | none => rw [hcon] at hc; exact absurd hc (by simp [pyTruthy])
      | some s =>
        rw [hcon] at hc h
        obtain rfl : s = x := by simpa using h
        simpa [pyTruthy] using hc
    · simp [hc] at h

end React

namespace Simple

lemma chunkStep_eq_fragOf (full : String) (c : StreamChunk) :
    chunkStep full c
      = match fragOf c with
        | some f => (full ++ f, some (full ++ f))
        | none => (full, none) := by
  cases c with
  | obj content text =>
    unfold chunkStep fragOf
    by_cases hc : pyTruthy content
    · simp [hc]
    · by_cases ht : pyTruthy text
      · simp [hc, ht]
      · simp [hc, ht]
  | str s => rfl

lemma streamLoopS_yields :
    ∀ (chunks : List StreamChunk) (acc : String),
      (∀ c ∈ chunks, (fragOf c).isSome) →
      (streamLoopS acc chunks).2 = cumConcat acc (chunks.filterMap fragOf)
  | [], _, _ => rfl
  | c :: rest, acc, h => by
    obtain ⟨f, hf⟩ := Option.isSome_iff_exists.mp (h c (List.mem_cons_self c rest))
    have hrest := streamLoopS_yields rest (acc ++ f)
      (fun x hx => h x (List.mem_cons_of_mem c hx))
    simp only [streamLoopS, chunkStep_eq_fragOf, hf, List.filterMap_cons]
    simp [cumConcat, hrest]

end Simple

lemma growsMonotone_cumConcat :
    ∀ (fs : List String) (acc : String), growsMonotone (cumConcat acc fs)
  | [], _ => trivial
  | [_], _ => trivial
  | f :: g :: r, acc => ⟨⟨g, rfl⟩, growsMonotone_cumConcat (g :: r) (acc ++ f)⟩

/-! Theorems settling the claims. -/

/-- C1: the claim asserts that whenever the streaming Generation Stage
produces a final State, run_streaming ends the event sequence with exactly
one complete event carrying the final answer and final State, and that the
concrete scenario (2 retrieved docs, generation contents "A" then a final
"AB") yields the six events ending with complete("AB", final_state).  The
code disagrees: the for loop of graph_builder.py line 105 only receives
the strings the generator yields, while the final State travels on the
generator's return (swallowed StopIteration), so final_state stays None
and the complete branch of lines 118-123 never runs, although the
docstring of run_streaming lists complete among the emitted steps.  At the
claimed scenario the code emits exactly the five non-complete events. -/
theorem C1_run_streaming_never_completes :
    Orchestrator.run_streaming
        (fun _ => [⟨"D1", none, none⟩, ⟨"D2", none, none⟩])
        [⟨[⟨some "A", false⟩]⟩, ⟨[⟨some "AB", true⟩]⟩]
        none [] "Q"
      = [⟨"retrieving", "Retrieving relevant documents...", none⟩,
         ⟨"retrieving", "Found 2 relevant documents",
          some ⟨"Q", [⟨"D1", none, none⟩, ⟨"D2", none, none⟩], none⟩⟩,
         ⟨"generating", "", some ⟨"Q", [⟨"D1", none, none⟩, ⟨"D2", none, none⟩], none⟩⟩,
         ⟨"generating", "A", some ⟨"Q", [⟨"D1", none, none⟩, ⟨"D2", none, none⟩], none⟩⟩,
         ⟨"generating", "AB", some ⟨"Q", [⟨"D1", none, none⟩, ⟨"D2", none, none⟩], none⟩⟩]
    ∧ (Orchestrator.run_streaming
        (fun _ => [⟨"D1", none, none⟩, ⟨"D2", none, none⟩])
        [⟨[⟨some "A", false⟩]⟩, ⟨[⟨some "AB", true⟩]⟩]
        none [] "Q").all (fun e => e.step != "complete") = true := by
  decide

/-- C2: when the reasoning-loop stream delivers no content-bearing event
(so nothing is yielded and the accumulated answer stays empty), streaming
generation performs exactly one fallback blocking invocation and yields
its single final answer, which becomes the answer of the returned final
State. -/
theorem C2_stream_exhausted_fallback (stream : List React.AgentChunk)
    (fallback : List React.AgentMessage) (m : React.AgentMessage)
    (st : RAGState) (h1 : React.contentsOf stream = [])
    (h2 : fallback.getLast? = some m) :
    React.generate_answer_streaming stream none fallback st
      = ([m.content.getD "Could not generate answer."],
         ({ question := st.question, retrieved_docs := st.retrieved_docs,
            answer := some (m.content.getD "Could not generate answer.") }, 1)) := by
  unfold React.generate_answer_streaming
  rw [React.reactStreamLoop_eq, h1, h2]
  simp

/-- Witness for C2 at a concrete input: an empty stream and a fallback
result whose last message carries the answer "ans". -/
theorem C2_stream_exhausted_fallback_witness :
    React.contentsOf [] = []
    ∧ ([(⟨some "ans", false⟩ : React.AgentMessage)].getLast?
        = some ⟨some "ans", false⟩)
    ∧ React.generate_answer_streaming [] none [⟨some "ans", false⟩]
        ⟨"q", [], none⟩
      = (["ans"], (⟨"q", [], some "ans"⟩, 1)) :=
  ⟨rfl, rfl,
   C2_stream_exhausted_fallback [] [⟨some "ans", false⟩] ⟨some "ans", false⟩
     ⟨"q", [], none⟩ rfl rfl⟩

/-- C3: in simple streaming mode, when the backend raises mid-stream with
details e, exactly one further fragment "Error during streaming: " ++ e is
yielded after the fragments already delivered, and the returned final
State carries that same text as its answer (question and retrieved docs
unchanged): the stream terminates with a final State instead of
propagating the exception. -/
theorem C3_streaming_error_fragment (chunks : List Simple.StreamChunk)
    (e : String) (st : RAGState) :
    Simple.generate_answer_streaming chunks (some e) st
      = ((Simple.streamLoopS "" chunks).2 ++ ["Error during streaming: " ++ e],
         { question := st.question, retrieved_docs := st.retrieved_docs,
           answer := some ("Error during streaming: " ++ e) }) := rfl

/-- C4: in simple streaming mode, for any sequence of chunks each bearing
a non-empty fragment, the yielded values are exactly the running
concatenations of the fragments so far (the cumulative strings, not the
deltas), and every yielded string extends the previous one. -/
theorem C4_cumulative_streaming (chunks : List Simple.StreamChunk)
    (h : ∀ c ∈ chunks, ∃ s, Simple.fragOf c = some s ∧ s ≠ "") :
    (Simple.streamLoopS "" chunks).2
        = cumConcat "" (chunks.filterMap Simple.fragOf)
    ∧ growsMonotone (Simple.streamLoopS "" chunks).2 := by
  have hsome : ∀ c ∈ chunks, (Simple.fragOf c).isSome := by
    intro c hc
    obtain ⟨s, hs, -⟩ := h c hc
    simp [hs]
  have h1 := Simple.streamLoopS_yields chunks "" hsome
  refine ⟨h1, ?_⟩
  rw [h1]
  exact growsMonotone_cumConcat _ _

/-- Witness for C4 at the fragments "He" and "llo" of the claim: the
yielded sequence is the cumulative one. -/
theorem C4_cumulative_streaming_witness :
    (∀ c ∈ [Simple.StreamChunk.str "He", Simple.StreamChunk.str "llo"],
        ∃ s, Simple.fragOf c = some s ∧ s ≠ "")
    ∧ ((Simple.streamLoopS ""
          [Simple.StreamChunk.str "He", Simple.StreamChunk.str "llo"]).2
        = cumConcat "" ([Simple.StreamChunk.str "He",
            Simple.StreamChunk.str "llo"].filterMap Simple.fragOf)
       ∧ growsMonotone (Simple.streamLoopS ""
          [Simple.StreamChunk.str "He", Simple.StreamChunk.str "llo"]).2)
    ∧ (Simple.streamLoopS ""
          [Simple.StreamChunk.str "He", Simple.StreamChunk.str "llo"]).2
        = ["He", "Hello"] := by
  have h : ∀ c ∈ [Simple.StreamChunk.str "He", Simple.StreamChunk.str "llo"],
      ∃ s, Simple.fragOf c = some s ∧ s ≠ "" := by
    intro c hc
    rcases List.mem_cons.mp hc with rfl | hc
    · exact ⟨"He", rfl, by decide⟩
    rcases List.mem_cons.mp hc with rfl | hc
    · exact ⟨"llo", rfl, by decide⟩
    simp at hc
  exact ⟨h, C4_cumulative_streaming _ h, by decide⟩

/-- C5: in tool-augmented streaming mode, every content-bearing event of
the reasoning-loop stream is yielded exactly once with its content
overwriting (not appending to) the accumulated answer, whether or not it
carries the completion marker, so the final State's answer equals the
content of the last content-bearing event and the fallback is not
invoked. -/
theorem C5_overwrite_semantics (stream : List React.AgentChunk)
    (fallback : List React.AgentMessage) (st : RAGState) (c : String)
    (h : (React.contentsOf stream).getLast? = some c) :
    React.generate_answer_streaming stream none fallback st
      = (React.contentsOf stream,
         ({ question := st.question, retrieved_docs := st.retrieved_docs,
            answer := some c }, 0)) := by
  have hmem : c ∈ React.contentsOf stream := List.mem_of_mem_getLast? h
  obtain ⟨ch, -, hch⟩ := List.mem_filterMap.mp hmem
  have hc : c ≠ "" := React.eventContent_ne_empty hch
  unfold React.generate_answer_streaming
  rw [React.reactStreamLoop_eq, h]
  simp [hc]

/-- Witness for C5 at a concrete input: a non-final event with content "A"
followed by a final event with content "B"; both are yielded once and the
final answer is "B", the content of the last content-bearing event. -/
theorem C5_overwrite_semantics_witness :
    (React.contentsOf [⟨[⟨some "A", false⟩]⟩, ⟨[⟨some "B", true⟩]⟩]).getLast?
        = some "B"
    ∧ React.generate_answer_streaming
        [⟨[⟨some "A", false⟩]⟩, ⟨[⟨some "B", true⟩]⟩] none [] ⟨"q", [], none⟩
      = (["A", "B"], (⟨"q", [], some "B"⟩, 0)) :=
  ⟨by decide, C5_overwrite_semantics _ _ _ _ (by decide)⟩

/-- C6: blocking simple-mode generation joins the passage bodies in
retrieval order with a blank line into the context block, embeds context
and question in the fixed template, sends exactly that one prompt to the
backend, stores the backend's response text as the answer, and carries
question and retrieved_docs over unchanged. -/
theorem C6_generate_answer_blocking (llm : String → String) (st : RAGState) :
    Simple.generate_answer llm st
      = ({ question := st.question, retrieved_docs := st.retrieved_docs,
           answer := some (llm (Simple.mkPrompt
             (String.intercalate "\n\n"
               (st.retrieved_docs.map Document.page_content)) st.question)) },
         [Simple.mkPrompt
           (String.intercalate "\n\n"
             (st.retrieved_docs.map Document.page_content)) st.question]) := rfl

/-- C7: retrieve_docs issues exactly one retrieval query, on the question
of the input state, and returns a new State whose retrieved_docs is
exactly the sequence that query returned, whose question is unchanged and
whose answer is unset; the input state is a value and is not mutated. -/
theorem C7_retrieve_docs (retriever : String → List Document) (st : RAGState) :
    retrieve_docs retriever st
      = ({ question := st.question, retrieved_docs := retriever st.question,
           answer := none }, [st.question]) := rfl

/-- C8: the retrieval-search tool returns the literal sentinel
"No documents found." when the retriever returns no passages, and
otherwise formats at most the first 8 passages as "[index] title", a
newline and the body, joined by blank lines, with the index starting
at 1. -/
theorem C8_retriever_tool (retriever : String → List Document) (query : String) :
    React.retriever_tool_fn retriever query
      = (if retriever query = [] then "No documents found."
         else String.intercalate "\n\n"
           ((((retriever query).take 8).enumFrom 1).map fun p =>
             "[" ++ toString p.1 ++ "] " ++ React.titleOf p.1 p.2 ++ "\n"
               ++ p.2.page_content))
    ∧ ((retriever query).take 8).length ≤ 8 := by
  constructor
  · unfold React.retriever_tool_fn
    by_cases hd : retriever query = []
    · simp [hd]
    · have hne : (retriever query).isEmpty = false := by
        cases hq : retriever query with
        | nil => exact absurd hq hd
        | cons a l => rfl
      simp [hne, hd]
  · rw [List.length_take]
    exact min_le_left _ _

/-- C9: tool-augmented blocking generation answers with the content of the
reasoning loop's final message, replaced by the literal sentinel
"Could not generate answer." when no message is produced or the final
message's content is absent or empty; question and retrieved_docs are
carried over and exactly one blocking invocation is made. -/
theorem C9_empty_answer_fallback (resultMessages : List React.AgentMessage)
    (st : RAGState) :
    React.generate_answer resultMessages st
      = ({ question := st.question, retrieved_docs := st.retrieved_docs,
           answer := some (match resultMessages.getLast? with
             | none => "Could not generate answer."
             | some m => match m.content with
               | none => "Could not generate answer."
               | some s => if s = "" then "Could not generate answer."
                           else s) }, 1) := by
  unfold React.generate_answer
  cases hm : resultMessages.getLast? with
  | none => simp [pyTruthy]
  | some m =>
    cases hc : m.content with
    | none => simp [pyTruthy, hc]
    | some s =>
      by_cases hs : s = ""
      · simp [pyTruthy, hc, hs]
      · simp [pyTruthy, hc, hs]

/-- C10 counterexample: the claim states that chunks with empty content
cause no yielded value, yet a plain-string chunk "" is consumed by the
isinstance branch of nodes.py line 100 without a truthiness check: after
the chunks "A" and "" the code has yielded twice (the unchanged cumulative
string again), not once. -/
theorem C10_empty_chunk_counterexample :
    (Simple.generate_answer_streaming
        [Simple.StreamChunk.str "A", Simple.StreamChunk.str ""]
        none ⟨"q", [], none⟩).1 = ["A", "A"]
    ∧ (Simple.generate_answer_streaming
        [Simple.StreamChunk.str "A", Simple.StreamChunk.str ""]
        none ⟨"q", [], none⟩).1 ≠ ["A"] := by
  decide

/-- C10 amended: chunks whose content or text attribute is empty or
missing (and chunks of unrecognized shape, modelled by both attributes
missing) are silently skipped, with no yield and an unchanged accumulated
answer; a plain-string chunk, however, is always appended and yielded,
even when it is the empty string, in which case the unchanged cumulative
string is yielded again. -/
theorem C10_skip_semantics (content text : Option String)
    (h1 : pyTruthy content = false) (h2 : pyTruthy text = false)
    (full s : String) :
    Simple.chunkStep full (Simple.StreamChunk.obj content text) = (full, none)
    ∧ Simple.chunkStep full (Simple.StreamChunk.str s)
        = (full ++ s, some (full ++ s)) := by
  constructor
  · unfold Simple.chunkStep
    simp [h1, h2]
  · rfl

/-- Witness for the amended C10 at a concrete input: an object chunk with
a missing content attribute and an empty text attribute is skipped, while
the empty plain-string chunk yields the unchanged accumulated string. -/
theorem C10_skip_semantics_witness :
    pyTruthy none = false ∧ pyTruthy (some "") = false
    ∧ Simple.chunkStep "A" (Simple.StreamChunk.obj none (some "")) = ("A", none)
    ∧ Simple.chunkStep "A" (Simple.StreamChunk.str "") = ("A", some "A") := by
  refine ⟨rfl, by decide, ?_, ?_⟩
  · exact (C10_skip_semantics none (some "") rfl (by decide) "A" "").1
  · exact (C10_skip_semantics none (some "") rfl (by decide) "A" "").2

end RAGSearch
